import Mathlib

set_option autoImplicit false

/-!
# Verification of the lesson-plan bot (`app.py`)

Shallow embedding of the single source file `app.py`: a Flask webhook that
drives a per-chat conversation state machine and a text → lesson-plan
pipeline (summarize, objectives, activities, assessment, template fill).

Modelling conventions:
* Python `str` is Lean `String`; the Python string methods used by the source
  (`split`, `strip`, `rstrip`, `lower`, `join`, `endswith`, `in`, slicing)
  are reimplemented below over `List Char` with Python's semantics, by
  structural recursion so the kernel can evaluate them.
* External collaborators (Telegram download, PyPDF2, pytesseract, sumy's
  TextRank, duckduckgo search, requests + readability, the filesystem check
  for the template, tempfile paths) are oracle functions collected in `Env`.
  The webhook model takes the TextRank ranking as a total function
  `sum : String → Nat → List String` (the library's normal, non-throwing
  behaviour); the standalone `summarize_text` model below also covers the
  throwing case via `Except`.
* Outbound `send_message` / `sendDocument` calls are recorded as an `Effect`
  trace (message markup/keyboards carry no state and are dropped).  The
  `ddg` search call is recorded as `Effect.search` with its query string;
  a completed `fill_template_and_send` records `Effect.filled` with the
  resolved template path and the six field values.
* A Python dict access that can raise `KeyError` (`SESS[chat]["tmp"][...]`)
  is modelled as `Except.error`; sessions are a total map `Int → Session`
  where the fresh session of `SESS.setdefault(chat_id, {})` is the record
  with every field absent (`none`), exactly the empty dict's behaviour.
-/

/-! ## Python string primitives -/

/-- Characters Python's `str.strip()` removes (ASCII whitespace). -/
def isPyWs (c : Char) : Bool :=
  c = ' ' || c = '\t' || c = '\n' || c = '\r' || c = '\x0b' || c = '\x0c'

/-- Python `str.strip()` on a character list. -/
def stripList (l : List Char) : List Char :=
  ((l.dropWhile isPyWs).reverse.dropWhile isPyWs).reverse

/-- Python `str.rstrip(c)` on a character list. -/
def rstripList (c : Char) (l : List Char) : List Char :=
  (l.reverse.dropWhile (fun d => d = c)).reverse

/-- Python `str.split(sep)` for a one-character separator: keeps empty
segments, `"".split(c) = [""]`. -/
def splitChar (c : Char) : List Char → List (List Char)
  | [] => [[]]
  | d :: ds =>
    if d = c then [] :: splitChar c ds
    else
      match splitChar c ds with
      | [] => [[d]]
      | y :: ys => (d :: y) :: ys

/-- Python `needle in hay` substring test. -/
def containsSubList (needle : List Char) : List Char → Bool
  | [] => needle.isPrefixOf []
  | d :: t => needle.isPrefixOf (d :: t) || containsSubList needle t

/-- Python no-argument `str.split()`: split on whitespace runs, dropping
empty tokens.  `cur` is the (reversed) word being accumulated. -/
def splitWsAux (cur : List Char) : List Char → List (List Char)
  | [] => if cur.isEmpty then [] else [cur.reverse]
  | d :: ds =>
    if isPyWs d then
      if cur.isEmpty then splitWsAux [] ds
      else cur.reverse :: splitWsAux [] ds
    else splitWsAux (d :: cur) ds

/-- Python `sep.join` on character lists. -/
def charJoin (sep : List Char) : List (List Char) → List Char
  | [] => []
  | [x] => x
  | x :: y :: ys => x ++ sep ++ charJoin sep (y :: ys)

def pyStrip (s : String) : String := String.mk (stripList s.toList)

def pyRstrip (c : Char) (s : String) : String := String.mk (rstripList c s.toList)

def pyLower (s : String) : String := String.mk (s.toList.map Char.toLower)

def pySplit (c : Char) (s : String) : List String := (splitChar c s.toList).map String.mk

def pySplitWs (s : String) : List String := (splitWsAux [] s.toList).map String.mk

def pyContains (needle hay : String) : Bool := containsSubList needle.toList hay.toList

def pyEndsWith (suf s : String) : Bool := suf.toList.isSuffixOf s.toList

/-- Python `sep.join(list)`. -/
def pyJoin (sep : String) : List String → String
  | [] => ""
  | [x] => x
  | x :: y :: ys => x ++ sep ++ pyJoin sep (y :: ys)

/-- Python slicing `s[:n]` (by characters). -/
def pyTake (n : Nat) (s : String) : String := String.mk (s.toList.take n)

/-- Python f-string interpolation of a value that is a `str` or `None`. -/
def pyShowOpt : Option String → String
  | none => "None"
  | some s => s

/-- Python `a or b` for strings (empty string is falsy). -/
def pyOrS (a b : String) : String := if a = "" then b else a

/-- Python `enumerate`, starting at `n`. -/
def pyEnumFrom (n : Nat) : List String → List (Nat × String)
  | [] => []
  | x :: xs => (n, x) :: pyEnumFrom (n + 1) xs

/-- Python `enumerate`. -/
def pyEnum (l : List String) : List (Nat × String) := pyEnumFrom 0 l

/-! ## Data model -/

/-- The per-session temporary collection dict `SESS[chat]["tmp"]`: the source
only ever stores the keys `grade`, `subject`, `chapter`; an absent key is
`none`. -/
structure Tmp where
  grade : Option String
  subject : Option String
  chapter : Option String
deriving DecidableEq, Repr

/-- One chat's session dict.  The fresh session created by
`SESS.setdefault(chat_id, {})` has every field `none`. -/
structure Session where
  state : Option String
  template_path : Option String
  tmp : Option Tmp
deriving DecidableEq, Repr

def initialSess : Session := { state := none, template_path := none, tmp := none }

/-- One result dict of `ddg(query)`: the source reads the keys
`href`/`url`/`title`/`body`/`snippet` with `.get`, so each is optional. -/
structure SearchHit where
  href : Option String
  url : Option String
  title : Option String
  body : Option String
  snippet : Option String
deriving DecidableEq, Repr

/-- A `requests` HTTP response: final status code and body text. -/
structure HttpResp where
  status : Nat
  text : String
deriving DecidableEq, Repr

/-- One inbound Telegram message, after the webhook's JSON dispatch:
`text` / `document` (optional `file_name`, `file_id`) / `photo` (file id of
the largest size, `msg["photo"][-1]`) / a message with none of those keys. -/
inductive Event where
  | text (t : String)
  | document (fname : Option String) (fid : String)
  | photo (fid : String)
  | blank
deriving DecidableEq, Repr

/-- Observable outbound actions of one webhook call. -/
inductive Effect where
  | msg (text : String)
  | search (query : String)
  | filled (template_path title summary objectives activities assessment references : String)
deriving DecidableEq, Repr

/-- Oracles for the external collaborators (network, libraries, filesystem). -/
structure Env where
  /-- `download_file(file_id, dest)`: `Except.error` models a raised
  request/HTTP error. -/
  download : String → Except String Unit
  /-- `extract_text_from_pdf` on the downloaded file of a given file id;
  `Except.error` models a PyPDF2 failure. -/
  extract_pdf : String → Except String String
  /-- `OCR_AVAILABLE` (import probe at startup). -/
  ocr_available : Bool
  /-- download + `pytesseract.image_to_string` for a photo file id (one
  `try` block in the source). -/
  ocr : String → Except String String
  /-- sumy TextRank: the ranked sentences for `(text, sentences_count)`,
  as their `str()` forms.  Total: the webhook model assumes the library
  does not throw (the throwing case is studied on `summarize_text`). -/
  sum : String → Nat → List String
  /-- `ddg(query, max_results=5)`. -/
  ddg : String → Except String (List SearchHit)
  /-- `requests.get(url, ...)` inside `extract_text_from_url`. -/
  fetch : String → Except String HttpResp
  /-- readability `Document(...).summary()` + BeautifulSoup `get_text`. -/
  htmlToText : String → String
  /-- `os.path.exists` for a template path. -/
  tmpl_exists : String → Bool
  /-- `DEFAULT_TEMPLATE_PATH`. -/
  default_template_path : String
  /-- `os.path.join(tempfile.mkdtemp(), fname)`: the fresh directory is
  modelled as a deterministic function of the file name (freshness is
  immaterial to the claims). -/
  mkLocalPath : String → String

/-! ## Content extractor, summarizer, generators (`app.py` lines 72-134) -/

/-- `extract_text_from_url(url, max_chars=20000)`: any exception from the
fetch or a 4xx/5xx status (`raise_for_status`) yields `""`; otherwise the
readability text truncated to `max_chars`. -/
def extract_text_from_url (fetch : String → Except String HttpResp)
    (htmlToText : String → String) (url : String) (max_chars : Nat) : String :=
  match fetch url with
  | Except.error _ => ""
  | Except.ok r =>
    if 400 ≤ r.status ∧ r.status < 600 then ""
    else pyTake max_chars (htmlToText r.text)

/-- `summarize_text(text, sentences_count)` with the tokenizer/TextRank call
as a fallible oracle `ext`: on empty input return `""` before touching the
tokenizer; otherwise join the ranked sentences with newlines.  There is no
`try`/`except` in the source, so an oracle failure propagates. -/
def summarize_text (ext : String → Nat → Except String (List String))
    (text : String) (sentences_count : Nat) : Except String String :=
  if text = "" then Except.ok ""
  else
    match ext text sentences_count with
    | Except.error e => Except.error e
    | Except.ok ss => Except.ok (pyJoin "\n" ss)

/-- `summarize_text` under a non-throwing ranking oracle (the form the
webhook handlers rely on). -/
def summarize_run (sum : String → Nat → List String) (text : String)
    (sentences_count : Nat) : String :=
  if text = "" then "" else pyJoin "\n" (sum text sentences_count)

def objective_keywords : List String :=
  ["able to", "will", "understand", "learn", "identify", "describe"]

/-- The candidate loop of `extract_objectives_from_text`: sentences obtained
by splitting on `"."`, stripped, non-empty, whose lowercase form contains one
of the keywords, in document order. -/
def objectives_candidates (text : String) : List String :=
  (pySplit '.' text).filterMap fun sent =>
    let s := pyStrip sent
    if s = "" then none
    else if objective_keywords.any (fun k => pyContains k (pyLower s)) then
      some (pyStrip s)
    else none

/-- `extract_objectives_from_text(text, max_points)`. -/
def extract_objectives_from_text (sum : String → Nat → List String)
    (text : String) (max_points : Nat) : String :=
  match objectives_candidates text with
  | c :: cs => pyJoin "\n" (((c :: cs).take max_points).map (fun k => "• " ++ k))
  | [] =>
    let summ := summarize_run sum text max_points
    if summ = "" then "• Objective 1\n• Objective 2"
    else
      pyJoin "\n" ((pySplit '\n' summ).filterMap fun s =>
        if pyStrip s = "" then none else some ("• " ++ pyStrip s))

/-- `generate_activities(text, max_items=4)`: a fixed template, independent
of the input. -/
def generate_activities (_text : String) : String :=
  "1. Read the summary and discuss key terms.\n2. Small-group activity: identify examples from the text.\n3. Hands-on/demo (if applicable): follow the experiment steps.\n4. Exit ticket: one short question to assess learning."

/-- The question built from the `i`-th summary line (`enumerate` index), or
`none` when the cleaned sentence has fewer than 3 words. -/
def assessment_label (i : Nat) (s : String) : Option String :=
  let s2 := pyRstrip '.' (pyStrip s)
  if (pySplitWs s2).length < 3 then none
  else some ("Q" ++ toString (i + 1) ++ ". Explain: " ++ s2 ++ "?")

/-- The `qs` list of `generate_assessment_questions` before the placeholder
fallback. -/
def assessment_qs (sum : String → Nat → List String) (text : String)
    (max_q : Nat) : List String :=
  (pyEnum ((pySplit '\n' (summarize_run sum text 4)).take max_q)).filterMap
    fun p => assessment_label p.1 p.2

/-- The question list actually joined and returned. -/
def assessment_final (sum : String → Nat → List String) (text : String)
    (max_q : Nat) : List String :=
  match assessment_qs sum text max_q with
  | [] => ["Q1. What is the main idea of the chapter?", "Q2. List two key points."]
  | q :: qs => q :: qs

/-- `generate_assessment_questions(text, max_q)`. -/
def generate_assessment_questions (sum : String → Nat → List String)
    (text : String) (max_q : Nat) : String :=
  pyJoin "\n" (assessment_final sum text max_q)

/-! ## Template filler and pipeline (`app.py` lines 136-169) -/

/-- The template path resolution of `fill_template_and_send`:
`SESS.get(chat_id, {}).get("template_path") or DEFAULT_TEMPLATE_PATH`. -/
def resolveTemplatePath (env : Env) (s : Session) : String :=
  match s.template_path with
  | some p => if p = "" then env.default_template_path else p
  | none => env.default_template_path

/-- `fill_template_and_send`: missing template is reported to the user and
nothing is sent; otherwise the filled document plus a confirmation message.
The python-docx placeholder substitution happens inside the external docx
library boundary and is carried opaquely by `Effect.filled`. -/
def fill_template_and_send (env : Env) (s : Session)
    (title summary objectives activities assessment references : String) :
    List Effect :=
  let tp := resolveTemplatePath env s
  if env.tmpl_exists tp then
    [Effect.filled tp title summary objectives activities assessment references,
     Effect.msg "Lesson plan generated ✅"]
  else
    [Effect.msg "Template not found on server. Please upload a .docx template or set DEFAULT_TEMPLATE_PATH."]

/-- The pipeline the source repeats at each of its four call sites:
summarize (6 sentences), objectives, activities, assessment, template fill. -/
def run_pipeline (env : Env) (s : Session) (title text references : String) :
    List Effect :=
  let summary := summarize_run env.sum text 6
  let objectives := extract_objectives_from_text env.sum text 5
  let activities := generate_activities text
  let assessment := generate_assessment_questions env.sum text 4
  fill_template_and_send env s title summary objectives activities assessment references

/-! ## Webhook state machine (`app.py` lines 176-316) -/

/-- The per-hit work of the `for h in hits[:3]` loop: the chosen URL, the
fetched (or snippet) text, and the reference line. -/
def processHit (env : Env) (h : SearchHit) : String × String :=
  let url : Option String := if h.href.isSome then h.href else h.url
  let snippet : String :=
    match h.body with
    | some b => if b = "" then h.snippet.getD "" else b
    | none => h.snippet.getD ""
  let txt : String :=
    match url with
    | some u => if u = "" then snippet else extract_text_from_url env.fetch env.htmlToText u 20000
    | none => snippet
  let ref : String :=
    (match h.title with
     | some t => if t = "" then pyShowOpt url else t
     | none => pyShowOpt url) ++ " — " ++ pyShowOpt url
  (txt, ref)

/-- The `await_chapter` branch: store the chapter, search, fetch the top 3
results, run the pipeline, reset the state to `idle`. -/
def findLessonStep (env : Env) (s : Session) (tm : Tmp) (txt : String) :
    Session × List Effect :=
  let tm2 := { tm with chapter := some txt }
  let grade := tm2.grade
  let subject := tm2.subject
  let chapter := tm2.chapter
  let query := pyShowOpt grade ++ " " ++ pyShowOpt subject ++ " " ++ pyShowOpt chapter ++ " summary lesson"
  let searchRes := env.ddg query
  let hits := match searchRes with
    | Except.ok hs => hs
    | Except.error _ => []
  let failEffs := match searchRes with
    | Except.ok _ => []
    | Except.error e => [Effect.msg ("Search failed: " ++ e ++ ". Proceeding without web sources.")]
  let processed := (hits.take 3).map (processHit env)
  let combined_texts := processed.filterMap fun p => if p.1 = "" then none else some p.1
  let references := processed.map fun p => p.2
  let big_text :=
    pyOrS (pyJoin "\n\n" combined_texts)
      (pyJoin " " (hits.map fun h => pyOrS (h.body.getD "") (h.snippet.getD "")))
  let src := pyOrS big_text (pyShowOpt chapter)
  let ref_text := match references with
    | [] => "No web refs found"
    | r :: rs => pyJoin "\n" (r :: rs)
  let effs := [Effect.msg ("Searching web for: " ++ query), Effect.search query]
    ++ failEffs
    ++ run_pipeline env { s with tmp := some tm2 }
         (pyShowOpt chapter ++ " (" ++ pyShowOpt subject ++ ")") src ref_text
  ({ s with
      tmp := some tm2
      state := some "idle" }, effs)

/-- The `"document" in msg` block. -/
def documentStep (env : Env) (s : Session) (fname0 : Option String)
    (fid : String) : Session × List Effect :=
  let fname := fname0.getD "file"
  match env.download fid with
  | Except.error e => (s, [Effect.msg ("Failed to download file: " ++ e)])
  | Except.ok _ =>
    if pyEndsWith ".docx" (pyLower fname) then
      ({ s with template_path := some (env.mkLocalPath fname) },
       [Effect.msg "Template saved for your session. Now upload or paste the lesson content or use /Hi_Rise again."])
    else if pyEndsWith ".pdf" (pyLower fname) then
      match env.extract_pdf fid with
      | Except.error e => (s, [Effect.msg ("PDF extraction failed: " ++ e)])
      | Except.ok text =>
        (s, run_pipeline env s "Extracted Lesson" text "Source: PDF uploaded by user")
    else (s, [])

/-- The `"photo" in msg` block. -/
def photoStep (env : Env) (s : Session) (fid : String) : Session × List Effect :=
  if env.ocr_available then
    match env.ocr fid with
    | Except.error e => (s, [Effect.msg ("OCR failed: " ++ e)])
    | Except.ok text =>
      (s, run_pipeline env s "Scanned Lesson" text "Source: scanned image")
  else (s, [Effect.msg "OCR not available. Please paste text or upload a PDF."])

/-- The `"text" in msg` handling, including the `/Hi_Rise` command check that
precedes it in the source.  `Except.error` models the `KeyError` raised when
`SESS[chat_id]["tmp"]` is accessed without having been set. -/
def textStep (env : Env) (s : Session) (t : String) :
    Except String (Session × List Effect) :=
  let txt := pyStrip t
  if txt = "/Hi_Rise" then
    Except.ok ({ s with state := some "idle" },
      [Effect.msg "Hi — for which lesson shall we create a lesson plan? Choose how to provide the lesson:"])
  else if txt = "Paste Text" then
    Except.ok ({ s with state := some "await_text" },
      [Effect.msg "Please paste the chapter text now."])
  else if txt = "Ask Bot to Find Lesson" then
    Except.ok ({ s with state := some "await_grade" },
      [Effect.msg "Which Grade? (e.g., Grade 6)"])
  else if s.state = some "await_text" then
    Except.ok ({ s with state := some "idle" },
      run_pipeline env s "Pasted Lesson" txt "Source: pasted by user")
  else if s.state = some "await_grade" then
    Except.ok ({ s with
                  tmp := some (Tmp.mk (some txt) none none)
                  state := some "await_subject" },
      [Effect.msg "Which Subject? (e.g., Mathematics)"])
  else if s.state = some "await_subject" then
    match s.tmp with
    | none => Except.error "KeyError: tmp"
    | some tm =>
      Except.ok ({ s with
                    tmp := some { tm with subject := some txt }
                    state := some "await_chapter" },
        [Effect.msg "Which Chapter name or number?"])
  else if s.state = some "await_chapter" then
    match s.tmp with
    | none => Except.error "KeyError: tmp"
    | some tm => Except.ok (findLessonStep env s tm txt)
  else
    Except.ok (s, [Effect.msg "Send /Hi_Rise to begin or paste the chapter text."])

/-- One webhook call for one chat's session. -/
def webhook (env : Env) (s : Session) (ev : Event) :
    Except String (Session × List Effect) :=
  match ev with
  | Event.blank => Except.ok (s, [])
  | Event.document fname0 fid => Except.ok (documentStep env s fname0 fid)
  | Event.photo fid => Except.ok (photoStep env s fid)
  | Event.text t => textStep env s t

/-- A sequence of webhook calls for a single chat id. -/
def runEvents (env : Env) : Session → List Event → Except String (Session × List Effect)
  | s, [] => Except.ok (s, [])
  | s, ev :: evs =>
    match webhook env s ev with
    | Except.error e => Except.error e
    | Except.ok (s2, effs) =>
      match runEvents env s2 evs with
      | Except.error e => Except.error e
      | Except.ok (s3, effs2) => Except.ok (s3, effs ++ effs2)

/-- The in-memory session map `SESS`. -/
abbrev SessMap : Type := Int → Session

/-- The map before any webhook call: `SESS = {}` together with
`SESS.setdefault(chat_id, {})` means every chat starts at the empty
session. -/
def emptySessMap : SessMap := fun _ => initialSess

/-- A sequence of webhook calls, each tagged with its sender chat id, over
the shared session map. -/
def runUpdates (env : Env) : SessMap → List (Int × Event) → Except String (SessMap × List Effect)
  | m, [] => Except.ok (m, [])
  | m, (chat, ev) :: us =>
    match webhook env (m chat) ev with
    | Except.error e => Except.error e
    | Except.ok (s2, effs) =>
      match runUpdates env (fun c => if c = chat then s2 else m c) us with
      | Except.error e => Except.error e
      | Except.ok (m2, effs2) => Except.ok (m2, effs ++ effs2)

/-! ## Concrete instantiations used by the closed theorems -/

/-- A benign environment: downloads succeed, the ranking returns the whole
text as one sentence, the search returns no hits, the template exists at the
default path. -/
def cEnv : Env :=
  { download := fun _ => Except.ok ()
    extract_pdf := fun _ => Except.ok ""
    ocr_available := true
    ocr := fun _ => Except.ok ""
    sum := fun t _ => [t]
    ddg := fun _ => Except.ok []
    fetch := fun _ => Except.error "network unreachable"
    htmlToText := fun s => s
    tmpl_exists := fun _ => true
    default_template_path := "/mnt/data/Sample Lesson Plan.docx"
    mkLocalPath := fun f => "/tmp/" ++ f }

/-- `cEnv` with a failing Telegram file download. -/
def failEnv : Env := { cEnv with download := fun _ => Except.error "boom" }

/-- `cEnv` with a failing PDF text extraction. -/
def pdfFailEnv : Env := { cEnv with extract_pdf := fun _ => Except.error "bad pdf" }

/-- `cEnv` with failing OCR. -/
def ocrFailEnv : Env := { cEnv with ocr := fun _ => Except.error "ocr boom" }

/-- `cEnv` with no template present on disk. -/
def noTplEnv : Env := { cEnv with tmpl_exists := fun _ => false }

/-- The five-event "find lesson" trace of the spec's state-machine example. -/
def evs5 : List Event :=
  [Event.text "/Hi_Rise", Event.text "Ask Bot to Find Lesson",
   Event.text "Grade 6", Event.text "Math", Event.text "Fractions"]

/-- The session after the five-event trace. -/
def s5c : Session :=
  { state := some "idle", template_path := none,
    tmp := some (Tmp.mk (some "Grade 6") (some "Math") (some "Fractions")) }

/-- The full effect trace of the five-event run under `cEnv`. -/
def effs5c : List Effect :=
  [Effect.msg "Hi — for which lesson shall we create a lesson plan? Choose how to provide the lesson:",
   Effect.msg "Which Grade? (e.g., Grade 6)",
   Effect.msg "Which Subject? (e.g., Mathematics)",
   Effect.msg "Which Chapter name or number?",
   Effect.msg "Searching web for: Grade 6 Math Fractions summary lesson",
   Effect.search "Grade 6 Math Fractions summary lesson",
   Effect.filled "/mnt/data/Sample Lesson Plan.docx" "Fractions (Math)" "Fractions" "• Fractions"
     (generate_activities "")
     "Q1. What is the main idea of the chapter?\nQ2. List two key points."
     "No web refs found",
   Effect.msg "Lesson plan generated ✅"]

/-- The query of a recorded web search. -/
def effectSearchQ : Effect → Option String
  | Effect.search q => some q
  | _ => none

/-- Whether an effect is a completed template fill (one pipeline delivery). -/
def effectIsFilled : Effect → Bool
  | Effect.filled _ _ _ _ _ _ _ => true
  | _ => false

/-- A ranking oracle that always fails (a tokenizer error). -/
def failingExt : String → Nat → Except String (List String) :=
  fun _ _ => Except.error "tokenizer failure"

/-- A ranking oracle returning the whole text as a single sentence. -/
def wholeTextExt : String → Nat → Except String (List String) :=
  fun t _ => Except.ok [t]

/-- A total ranking oracle returning nothing. -/
def emptySum : String → Nat → List String := fun _ _ => []

/-- A total ranking oracle for the non-consecutive-numbering example: three
sentences, the middle one too short to survive. -/
def demoSum : String → Nat → List String :=
  fun _ _ => ["One two three", "hi", "four five six seven"]

/-- A fetch oracle that always raises (network error). -/
def fetchDown : String → Except String HttpResp := fun _ => Except.error "connection refused"

/-- A fetch oracle returning `304 Not Modified` (a non-2xx status that
`raise_for_status` does not raise on) with a body. -/
def fetch304 : String → Except String HttpResp := fun _ => Except.ok (HttpResp.mk 304 "hello")

/-- A fetch oracle returning `404`. -/
def fetch404 : String → Except String HttpResp := fun _ => Except.ok (HttpResp.mk 404 "gone")

/-- Identity readability oracle. -/
def htmlId : String → String := fun s => s

/-! ## Lemmas about the string primitives -/

theorem str_eq_empty_of_length (s : String) (h : s.length = 0) : s = "" := by
  cases s with
  | mk data =>
    cases data with
    | nil => rfl
    | cons a l => simp [String.length] at h

theorem append_ne_empty_left (a b : String) (h : a ≠ "") : a ++ b ≠ "" := by
  intro hab
  apply h
  apply str_eq_empty_of_length
  have h2 : a.length + b.length = 0 := by
    rw [← String.length_append, hab]
    rfl
  omega

theorem pyJoin_ne_empty_of_mem (sep : String) (l : List String) (x : String)
    (hxe : x ≠ "") : x ∈ l → pyJoin sep l ≠ "" := by
  induction l with
  | nil => intro hx; cases hx
  | cons a t ih =>
    intro hx
    cases t with
    | nil =>
      have hxa : x = a := by simpa using hx
      subst hxa
      simpa [pyJoin] using hxe
    | cons b ts =>
      show a ++ sep ++ pyJoin sep (b :: ts) ≠ ""
      rcases List.mem_cons.mp hx with h1 | h2
      · subst h1
        exact append_ne_empty_left _ _ (append_ne_empty_left _ _ hxe)
      · intro hcontra
        apply ih h2
        apply str_eq_empty_of_length
        have h2l : (a ++ sep).length + (pyJoin sep (b :: ts)).length = 0 := by
          rw [← String.length_append, hcontra]
          rfl
        omega

theorem splitChar_ne_nil (c : Char) (l : List Char) : splitChar c l ≠ [] := by
  induction l with
  | nil => simp [splitChar]
  | cons d ds ih =>
    simp only [splitChar]
    split
    · simp
    · split <;> simp

theorem splitChar_no_sep (c : Char) (l : List Char) (h : c ∉ l) : splitChar c l = [l] := by
  induction l with
  | nil => rfl
  | cons d ds ih =>
    have hd : ¬ d = c := fun he => h (he ▸ List.mem_cons_self d ds)
    have hds : c ∉ ds := fun hm => h (List.mem_cons_of_mem d hm)
    simp only [splitChar, if_neg hd, ih hds]

theorem splitChar_append_cons (c : Char) (x r : List Char) (hx : c ∉ x) :
    splitChar c (x ++ c :: r) = x :: splitChar c r := by
  induction x with
  | nil =>
    show splitChar c (c :: r) = [] :: splitChar c r
    simp [splitChar]
  | cons d ds ih =>
    have hd : ¬ d = c := fun he => hx (he ▸ List.mem_cons_self d ds)
    have hds : c ∉ ds := fun hm => hx (List.mem_cons_of_mem d hm)
    show splitChar c (d :: (ds ++ c :: r)) = (d :: ds) :: splitChar c r
    simp only [splitChar]
    rw [if_neg hd, ih hds]

theorem splitChar_charJoin (c : Char) (ls : List (List Char))
    (h : ∀ x ∈ ls, c ∉ x) : ls ≠ [] → splitChar c (charJoin [c] ls) = ls := by
  induction ls with
  | nil => intro hne; exact absurd rfl hne
  | cons x t ih =>
    intro _
    cases t with
    | nil => exact splitChar_no_sep c x (h x (List.mem_cons_self x []))
    | cons y ys =>
      have hx : c ∉ x := h x (List.mem_cons_self _ _)
      have ht : ∀ z ∈ y :: ys, c ∉ z := fun z hz => h z (List.mem_cons_of_mem x hz)
      show splitChar c (x ++ [c] ++ charJoin [c] (y :: ys)) = x :: y :: ys
      rw [List.append_assoc, List.singleton_append, splitChar_append_cons c x _ hx,
        ih ht (by simp)]

theorem toList_pyJoin (sep : String) (ss : List String) :
    (pyJoin sep ss).toList = charJoin sep.toList (ss.map String.toList) := by
  induction ss with
  | nil => rfl
  | cons x t ih =>
    cases t with
    | nil => rfl
    | cons y ys =>
      show (x ++ sep ++ pyJoin sep (y :: ys)).data
        = x.data ++ sep.data ++ charJoin sep.data (((y :: ys)).map String.toList)
      rw [String.data_append, String.data_append]
      have ih2 : (pyJoin sep (y :: ys)).data = charJoin sep.data ((y :: ys).map String.toList) := ih
      rw [ih2]

theorem mk_toList (s : String) : String.mk s.toList = s := rfl

theorem pySplit_pyJoin (ss : List String) (h : ∀ s ∈ ss, ('\n' : Char) ∉ s.toList)
    (hne : ss ≠ []) : pySplit '\n' (pyJoin "\n" ss) = ss := by
  unfold pySplit
  rw [toList_pyJoin]
  have hsep : ("\n" : String).toList = ['\n'] := rfl
  rw [hsep]
  have hmem : ∀ x ∈ ss.map String.toList, ('\n' : Char) ∉ x := by
    intro x hx
    obtain ⟨s, hs, rfl⟩ := List.mem_map.mp hx
    exact h s hs
  have hne2 : ss.map String.toList ≠ [] := by simpa using hne
  rw [splitChar_charJoin '\n' (ss.map String.toList) hmem hne2, List.map_map]
  have : (String.mk ∘ String.toList) = id := by
    funext s
    exact mk_toList s
  rw [this, List.map_id]

theorem pyEnumFrom_length (n : Nat) (l : List String) :
    (pyEnumFrom n l).length = l.length := by
  induction l generalizing n with
  | nil => rfl
  | cons x t ih => simp [pyEnumFrom, ih]

theorem mem_pyEnumFrom (n : Nat) (l : List String) (p : Nat × String)
    (hp : p ∈ pyEnumFrom n l) : n ≤ p.1 ∧ p.1 < n + l.length := by
  induction l generalizing n with
  | nil => cases hp
  | cons x t ih =>
    rcases List.mem_cons.mp hp with h1 | h2
    · subst h1; simp
    · have h3 := ih (n + 1) h2
      constructor <;> [omega; (simp only [List.length_cons]; omega)]

/-! ## The collection-state invariant -/

/-- In `await_subject` the temporary dict holds exactly the grade collected
by the current flow (subject and chapter unset); in `await_chapter` exactly
grade and subject.  Other states impose nothing. -/
def SInv (s : Session) : Prop :=
  (s.state = some "await_subject" → ∃ g, s.tmp = some (Tmp.mk (some g) none none)) ∧
  (s.state = some "await_chapter" → ∃ g sb, s.tmp = some (Tmp.mk (some g) (some sb) none))

theorem sInv_of_state (s : Session) (h1 : s.state ≠ some "await_subject")
    (h2 : s.state ≠ some "await_chapter") : SInv s :=
  ⟨fun h => absurd h h1, fun h => absurd h h2⟩

theorem sInv_of_state_eq (s : Session) (st : String) (h : s.state = some st)
    (h1 : st ≠ "await_subject") (h2 : st ≠ "await_chapter") : SInv s := by
  constructor
  · intro hc
    rw [h] at hc
    exact absurd (Option.some.inj hc) h1
  · intro hc
    rw [h] at hc
    exact absurd (Option.some.inj hc) h2

theorem sInv_congr (s s2 : Session) (h1 : s2.state = s.state)
    (h2 : s2.tmp = s.tmp) (hs : SInv s) : SInv s2 := by
  constructor
  · intro h
    rw [h1] at h
    obtain ⟨g, hg⟩ := hs.1 h
    exact ⟨g, by rw [h2]; exact hg⟩
  · intro h
    rw [h1] at h
    obtain ⟨g, sb, hg⟩ := hs.2 h
    exact ⟨g, sb, by rw [h2]; exact hg⟩

theorem documentStep_frame (env : Env) (s : Session) (f0 : Option String)
    (fid : String) : (documentStep env s f0 fid).1.state = s.state
      ∧ (documentStep env s f0 fid).1.tmp = s.tmp := by
  unfold documentStep
  cases env.download fid with
  | error e => exact ⟨rfl, rfl⟩
  | ok u =>
    simp only
    split
    · exact ⟨rfl, rfl⟩
    · split
      · cases env.extract_pdf fid with
        | error e => exact ⟨rfl, rfl⟩
        | ok t => exact ⟨rfl, rfl⟩
      · exact ⟨rfl, rfl⟩

theorem photoStep_frame (env : Env) (s : Session) (fid : String) :
    (photoStep env s fid).1.state = s.state
      ∧ (photoStep env s fid).1.tmp = s.tmp := by
  unfold photoStep
  split
  · cases env.ocr fid with
    | error e => exact ⟨rfl, rfl⟩
    | ok t => exact ⟨rfl, rfl⟩
  · exact ⟨rfl, rfl⟩

theorem findLessonStep_state (env : Env) (s : Session) (tm : Tmp) (txt : String) :
    (findLessonStep env s tm txt).1.state = some "idle" := rfl

theorem textStep_inv (env : Env) (s : Session) (t : String) (hs : SInv s) :
    ∃ s2 effs, textStep env s t = Except.ok (s2, effs) ∧ SInv s2 := by
  unfold textStep
  by_cases h1 : pyStrip t = "/Hi_Rise"
  · rw [if_pos h1]
    refine ⟨_, _, rfl, ?_⟩
    exact sInv_of_state_eq _ "idle" rfl (by decide) (by decide)
  rw [if_neg h1]
  by_cases h2 : pyStrip t = "Paste Text"
  · rw [if_pos h2]
    refine ⟨_, _, rfl, ?_⟩
    exact sInv_of_state_eq _ "await_text" rfl (by decide) (by decide)
  rw [if_neg h2]
  by_cases h3 : pyStrip t = "Ask Bot to Find Lesson"
  · rw [if_pos h3]
    refine ⟨_, _, rfl, ?_⟩
    exact sInv_of_state_eq _ "await_grade" rfl (by decide) (by decide)
  rw [if_neg h3]
  by_cases h4 : s.state = some "await_text"
  · rw [if_pos h4]
    refine ⟨_, _, rfl, ?_⟩
    exact sInv_of_state_eq _ "idle" rfl (by decide) (by decide)
  rw [if_neg h4]
  by_cases h5 : s.state = some "await_grade"
  · rw [if_pos h5]
    refine ⟨_, _, rfl, ?_⟩
    constructor
    · intro _
      exact ⟨pyStrip t, rfl⟩
    · intro hbad
      exact absurd (Option.some.inj hbad) (by decide)
  rw [if_neg h5]
  by_cases h6 : s.state = some "await_subject"
  · rw [if_pos h6]
    obtain ⟨g, htmp⟩ := hs.1 h6
    rw [htmp]
    refine ⟨_, _, rfl, ?_⟩
    constructor
    · intro hbad
      exact absurd (Option.some.inj hbad) (by decide)
    · intro _
      exact ⟨g, pyStrip t, rfl⟩
  rw [if_neg h6]
  by_cases h7 : s.state = some "await_chapter"
  · rw [if_pos h7]
    obtain ⟨g, sb, htmp⟩ := hs.2 h7
    rw [htmp]
    refine ⟨_, _, rfl, ?_⟩
    exact sInv_of_state_eq _ "idle" rfl (by decide) (by decide)
  rw [if_neg h7]
  exact ⟨_, _, rfl, hs⟩

theorem webhook_inv (env : Env) (s : Session) (ev : Event) (hs : SInv s) :
    ∃ s2 effs, webhook env s ev = Except.ok (s2, effs) ∧ SInv s2 := by
  cases ev with
  | blank => exact ⟨s, [], rfl, hs⟩
  | text t => exact textStep_inv env s t hs
  | document f0 fid =>
    have hf := documentStep_frame env s f0 fid
    exact ⟨(documentStep env s f0 fid).1, (documentStep env s f0 fid).2, rfl,
      sInv_congr s _ hf.1 hf.2 hs⟩
  | photo fid =>
    have hf := photoStep_frame env s fid
    exact ⟨(photoStep env s fid).1, (photoStep env s fid).2, rfl,
      sInv_congr s _ hf.1 hf.2 hs⟩

theorem runEvents_inv (env : Env) (evs : List Event) (s : Session) (hs : SInv s) :
    ∃ s2 effs, runEvents env s evs = Except.ok (s2, effs) ∧ SInv s2 := by
  induction evs generalizing s with
  | nil => exact ⟨s, [], rfl, hs⟩
  | cons ev t ih =>
    obtain ⟨s2, effs, heq, hs2⟩ := webhook_inv env s ev hs
    obtain ⟨s3, effs2, heq2, hs3⟩ := ih s2 hs2
    refine ⟨s3, effs ++ effs2, ?_, hs3⟩
    simp only [runEvents, heq, heq2]

/-- The whole session map satisfies the invariant. -/
def MapInv (m : SessMap) : Prop := ∀ c, SInv (m c)

theorem mapInv_empty : MapInv emptySessMap := by
  intro c
  constructor
  · intro h
    exact Option.noConfusion h
  · intro h
    exact Option.noConfusion h

theorem runUpdates_inv (env : Env) (us : List (Int × Event)) (m : SessMap)
    (hm : MapInv m) :
    ∃ m2 effs, runUpdates env m us = Except.ok (m2, effs) ∧ MapInv m2 := by
  induction us generalizing m with
  | nil => exact ⟨m, [], rfl, hm⟩
  | cons u t ih =>
    obtain ⟨chat, ev⟩ := u
    obtain ⟨s2, effs, heq, hs2⟩ := webhook_inv env (m chat) ev (hm chat)
    have hm2 : MapInv (fun c => if c = chat then s2 else m c) := by
      intro c
      by_cases hc : c = chat
      · simpa [hc] using hs2
      · simpa [hc] using hm c
    obtain ⟨m3, effs2, heq2, hm3⟩ := ih _ hm2
    refine ⟨m3, effs ++ effs2, ?_, hm3⟩
    simp only [runUpdates, heq, heq2]

/-! ## Claim theorems -/

/-- **C1**: the webhook event sequence `/Hi_Rise`, "Ask Bot to Find Lesson",
"Grade 6", "Math", "Fractions" from one chat drives the session through
`idle` (menu shown), `await_grade`, `await_subject`, `await_chapter` and back
to `idle` (the pre-command session is the fresh empty dict, whose missing
`state` key is the code's representation of the idle/default state), and
triggers exactly one web search — whose query contains
"Grade 6 Math Fractions" — and exactly one completed pipeline delivery
(summary, objectives, activities, assessment and references filled into the
template). -/
theorem c1_find_lesson_flow :
    initialSess.state = none
  ∧ runEvents cEnv initialSess (evs5.take 1)
      = Except.ok (Session.mk (some "idle") none none,
          [Effect.msg "Hi — for which lesson shall we create a lesson plan? Choose how to provide the lesson:"])
  ∧ runEvents cEnv initialSess (evs5.take 2)
      = Except.ok (Session.mk (some "await_grade") none none,
          [Effect.msg "Hi — for which lesson shall we create a lesson plan? Choose how to provide the lesson:",
           Effect.msg "Which Grade? (e.g., Grade 6)"])
  ∧ runEvents cEnv initialSess (evs5.take 3)
      = Except.ok (Session.mk (some "await_subject") none (some (Tmp.mk (some "Grade 6") none none)),
          [Effect.msg "Hi — for which lesson shall we create a lesson plan? Choose how to provide the lesson:",
           Effect.msg "Which Grade? (e.g., Grade 6)",
           Effect.msg "Which Subject? (e.g., Mathematics)"])
  ∧ runEvents cEnv initialSess (evs5.take 4)
      = Except.ok (Session.mk (some "await_chapter") none (some (Tmp.mk (some "Grade 6") (some "Math") none)),
          [Effect.msg "Hi — for which lesson shall we create a lesson plan? Choose how to provide the lesson:",
           Effect.msg "Which Grade? (e.g., Grade 6)",
           Effect.msg "Which Subject? (e.g., Mathematics)",
           Effect.msg "Which Chapter name or number?"])
  ∧ runEvents cEnv initialSess evs5 = Except.ok (s5c, effs5c)
  ∧ s5c.state = some "idle"
  ∧ effs5c.filterMap effectSearchQ = ["Grade 6 Math Fractions summary lesson"]
  ∧ pyContains "Grade 6 Math Fractions" "Grade 6 Math Fractions summary lesson" = true
  ∧ effs5c.countP effectIsFilled = 1 :=
  ⟨rfl, rfl, rfl, rfl, rfl, rfl, rfl, rfl, by decide, rfl⟩

/-- **C6**: the objectives generator on
`"Students will understand fractions. The sky is blue."` yields exactly the
single bullet `"• Students will understand fractions"` — the keyword "will"
matches the first sentence, the second contains no keyword — whatever the
summarizer does (the fallback is not reached). -/
theorem c6_objectives_example (sum : String → Nat → List String) :
    extract_objectives_from_text sum
      "Students will understand fractions. The sky is blue." 5
      = "• Students will understand fractions" := rfl

/-- **C2** counterexample: when the tokenizer/ranking oracle fails,
`summarize_text` propagates the error instead of returning the first
`sentences_count` lines of the raw text (there is no fallback in the
source: `summarize_text` has no `try`/`except`). -/
theorem c2_counterexample :
    summarize_text failingExt "line1\nline2" 1 = Except.error "tokenizer failure"
  ∧ (pySplit '\n' "line1\nline2").take 1 = ["line1"]
  ∧ (Except.error "tokenizer failure" : Except String String) ≠ Except.ok "line1" :=
  ⟨rfl, by decide, fun h => Except.noConfusion h⟩

/-- **C2** amended: `summarize_text` returns `""` on empty input without
touching the tokenizer; a tokenizer/ranking failure propagates unchanged to
the caller (no fallback); when the ranking succeeds with at most
`sentences_count` newline-free sentences (and `sentences_count ≥ 1`), the
output has at most `sentences_count` lines. -/
theorem c2_amended (ext : String → Nat → Except String (List String))
    (text : String) (n : Nat) :
    (text = "" → summarize_text ext text n = Except.ok "")
  ∧ (∀ e, text ≠ "" → ext text n = Except.error e →
      summarize_text ext text n = Except.error e)
  ∧ (∀ ss r, ext text n = Except.ok ss → (∀ s ∈ ss, ('\n' : Char) ∉ s.toList) →
      ss.length ≤ n → 1 ≤ n → summarize_text ext text n = Except.ok r →
      (pySplit '\n' r).length ≤ n) := by
  refine ⟨?_, ?_, ?_⟩
  · intro h
    unfold summarize_text
    rw [if_pos h]
  · intro e hne herr
    unfold summarize_text
    rw [if_neg hne, herr]
  · intro ss r hok hnl hlen hn hsum
    unfold summarize_text at hsum
    by_cases hte : text = ""
    · rw [if_pos hte] at hsum
      have hr : ("" : String) = r := Except.ok.inj hsum
      rw [← hr]
      have hsplit : pySplit '\n' "" = [""] := rfl
      rw [hsplit]
      simpa using hn
    · rw [if_neg hte, hok] at hsum
      have hr : pyJoin "\n" ss = r := Except.ok.inj hsum
      rw [← hr]
      cases ss with
      | nil =>
        have hsplit : pySplit '\n' (pyJoin "\n" ([] : List String)) = [""] := rfl
        rw [hsplit]
        simpa using hn
      | cons a l =>
        rw [pySplit_pyJoin (a :: l) hnl (by simp)]
        simpa using hlen

/-- **C2** amended, witness at concrete inputs. -/
theorem c2_amended_witness :
    summarize_text wholeTextExt "" 3 = Except.ok ""
  ∧ (pySplit '\n' "abc").length ≤ 1 := by
  constructor
  · exact (c2_amended wholeTextExt "" 3).1 rfl
  · exact (c2_amended wholeTextExt "abc" 1).2.2 ["abc"] "abc" rfl (by decide)
      (by decide) (by decide) rfl

/-- **C3** counterexample: after the completed find-lesson flow the session
is back in `idle` yet still carries all three collected fields — the
pending data is not cleared when the flow ends, only overwritten when the
next flow starts. -/
theorem c3_counterexample :
    runEvents cEnv initialSess evs5 = Except.ok (s5c, effs5c)
  ∧ s5c.state = some "idle"
  ∧ s5c.tmp = some (Tmp.mk (some "Grade 6") (some "Math") (some "Fractions"))
  ∧ s5c.tmp ≠ none :=
  ⟨rfl, rfl, rfl, by decide⟩

/-- **C4** counterexample: a failed document download while the session is
collecting (`await_grade`) is reported to the user, but the state is left at
`await_grade` — it is not reset to `idle` as the claim states. -/
theorem c4_counterexample :
    webhook failEnv (Session.mk (some "await_grade") none none)
      (Event.document (some "ch.pdf") "f9")
      = Except.ok (Session.mk (some "await_grade") none none,
          [Effect.msg "Failed to download file: boom"])
  ∧ (some "await_grade" : Option String) ≠ some "idle" :=
  ⟨rfl, by decide⟩

/-- **C4** amended: each top-level failure (download, PDF extraction, OCR,
missing template) is converted into a user-facing message and the webhook
returns normally — but the session state is left unchanged, not reset to
`idle`; only the pasted-text flow sets `idle` after the pipeline, which it
also does when the template is missing. -/
theorem c4_amended (env : Env) (s : Session) (fname fid err txt : String) :
    (env.download fid = Except.error err →
      webhook env s (Event.document (some fname) fid)
        = Except.ok (s, [Effect.msg ("Failed to download file: " ++ err)]))
  ∧ (env.download fid = Except.ok () → pyEndsWith ".docx" (pyLower fname) = false →
      pyEndsWith ".pdf" (pyLower fname) = true → env.extract_pdf fid = Except.error err →
      webhook env s (Event.document (some fname) fid)
        = Except.ok (s, [Effect.msg ("PDF extraction failed: " ++ err)]))
  ∧ (env.ocr_available = true → env.ocr fid = Except.error err →
      webhook env s (Event.photo fid)
        = Except.ok (s, [Effect.msg ("OCR failed: " ++ err)]))
  ∧ (s.state = some "await_text" → pyStrip txt ≠ "/Hi_Rise" →
      pyStrip txt ≠ "Paste Text" → pyStrip txt ≠ "Ask Bot to Find Lesson" →
      env.tmpl_exists (resolveTemplatePath env s) = false →
      webhook env s (Event.text txt)
        = Except.ok ({ s with state := some "idle" },
            [Effect.msg "Template not found on server. Please upload a .docx template or set DEFAULT_TEMPLATE_PATH."])) := by
  refine ⟨?_, ?_, ?_, ?_⟩
  · intro hdl
    simp [webhook, documentStep, hdl]
  · intro hdl hdocx hpdf hex
    simp [webhook, documentStep, hdl, hdocx, hpdf, hex]
  · intro hocr hfail
    simp [webhook, photoStep, hocr, hfail]
  · intro hst h1 h2 h3 htpl
    simp [webhook, textStep, h1, h2, h3, hst, run_pipeline,
      fill_template_and_send, htpl]

/-- **C4** amended, witness: the four failure kinds at concrete inputs. -/
theorem c4_amended_witness :
    webhook failEnv initialSess (Event.document (some "a.pdf") "f1")
      = Except.ok (initialSess, [Effect.msg "Failed to download file: boom"])
  ∧ webhook pdfFailEnv initialSess (Event.document (some "a.pdf") "f1")
      = Except.ok (initialSess, [Effect.msg "PDF extraction failed: bad pdf"])
  ∧ webhook ocrFailEnv initialSess (Event.photo "f2")
      = Except.ok (initialSess, [Effect.msg "OCR failed: ocr boom"])
  ∧ webhook noTplEnv (Session.mk (some "await_text") none none)
      (Event.text "some chapter text")
      = Except.ok (Session.mk (some "idle") none none,
          [Effect.msg "Template not found on server. Please upload a .docx template or set DEFAULT_TEMPLATE_PATH."]) := by
  refine ⟨?_, ?_, ?_, ?_⟩
  · exact (c4_amended failEnv initialSess "a.pdf" "f1" "boom" "x").1 rfl
  · exact (c4_amended pdfFailEnv initialSess "a.pdf" "f1" "bad pdf" "x").2.1 rfl
      (by decide) (by decide) rfl
  · exact (c4_amended ocrFailEnv initialSess "img" "f2" "ocr boom" "x").2.2.1 rfl rfl
  · exact (c4_amended noTplEnv (Session.mk (some "await_text") none none)
      "f" "f" "e" "some chapter text").2.2.2 rfl (by decide) (by decide) (by decide) rfl

/-- **C7** counterexample: a non-2xx response that is not 4xx/5xx (here a
`304` with a body) is not treated as a failure — `raise_for_status` only
raises for 400-599 — so extraction proceeds and returns non-empty text,
contradicting "non-2xx response yields the empty string". -/
theorem c7_counterexample :
    extract_text_from_url fetch304 htmlId "http://example.com" 20000 = "hello"
  ∧ ¬ (200 ≤ 304 ∧ 304 < 300)
  ∧ ("hello" : String) ≠ "" :=
  ⟨rfl, by decide, by decide⟩

/-- **C7** amended: a raised network error, or a response with a 4xx/5xx
status, makes `extract_text_from_url` return the empty string instead of
propagating an exception; statuses outside 400-599 proceed to content
extraction. -/
theorem c7_amended (fetch : String → Except String HttpResp)
    (h2t : String → String) (url : String) (n : Nat) :
    (∀ e, fetch url = Except.error e → extract_text_from_url fetch h2t url n = "")
  ∧ (∀ r, fetch url = Except.ok r → 400 ≤ r.status → r.status < 600 →
      extract_text_from_url fetch h2t url n = "") := by
  constructor
  · intro e he
    unfold extract_text_from_url
    rw [he]
  · intro r hr h4 h6
    unfold extract_text_from_url
    rw [hr]
    show (if 400 ≤ r.status ∧ r.status < 600 then "" else pyTake n (h2t r.text)) = ""
    rw [if_pos ⟨h4, h6⟩]

/-- **C7** amended, witness: a network error and a `404` both yield `""`. -/
theorem c7_amended_witness :
    extract_text_from_url fetchDown htmlId "http://a" 20000 = ""
  ∧ extract_text_from_url fetch404 htmlId "http://a" 20000 = "" := by
  constructor
  · exact (c7_amended fetchDown htmlId "http://a" 20000).1 "connection refused" rfl
  · exact (c7_amended fetch404 htmlId "http://a" 20000).2 (HttpResp.mk 404 "gone")
      rfl (by decide) (by decide)

/-- **C8**: a successful upload of a document whose (lowercased) name ends
in `.docx` stores its local path as the session's template override, leaves
the state and pending fields (and everything else in the session) unchanged,
and triggers no pipeline run — the only effect is one confirmation
message. -/
theorem c8_template_upload (env : Env) (s : Session) (fname fid : String)
    (hdl : env.download fid = Except.ok ())
    (hdocx : pyEndsWith ".docx" (pyLower fname) = true) :
    webhook env s (Event.document (some fname) fid)
      = Except.ok ({ s with template_path := some (env.mkLocalPath fname) },
          [Effect.msg "Template saved for your session. Now upload or paste the lesson content or use /Hi_Rise again."]) := by
  simp [webhook, documentStep, hdl, hdocx]

/-- **C8**, witness: an upload named `My.DOCX` (case-insensitive match). -/
theorem c8_template_upload_witness :
    webhook cEnv initialSess (Event.document (some "My.DOCX") "f1")
      = Except.ok (Session.mk none (some "/tmp/My.DOCX") none,
          [Effect.msg "Template saved for your session. Now upload or paste the lesson content or use /Hi_Rise again."]) :=
  c8_template_upload cEnv initialSess "My.DOCX" "f1" rfl (by decide)

/-- **C9**: over every sequence of webhook events starting from the empty
session map, the handlers never hit the `KeyError` of
`SESS[chat_id]["tmp"]`, and every reachable session in `await_subject` or
`await_chapter` carries the temporary mapping with the `grade` field
present. -/
theorem c9_collection_invariant (env : Env) (us : List (Int × Event)) :
    (∀ e, runUpdates env emptySessMap us ≠ Except.error e)
  ∧ (∀ m2 effs c, runUpdates env emptySessMap us = Except.ok (m2, effs) →
      ((m2 c).state = some "await_subject" ∨ (m2 c).state = some "await_chapter") →
      ∃ tm g, (m2 c).tmp = some tm ∧ tm.grade = some g) := by
  obtain ⟨m3, effs2, heq, hinv⟩ := runUpdates_inv env us emptySessMap mapInv_empty
  constructor
  · intro e hcontra
    rw [heq] at hcontra
    exact Except.noConfusion hcontra
  · intro m2 effs c hok hst
    rw [heq] at hok
    have hm : m3 = m2 := congrArg Prod.fst (Except.ok.inj hok)
    subst hm
    rcases hst with h | h
    · obtain ⟨g, hg⟩ := (hinv c).1 h
      exact ⟨_, g, hg, rfl⟩
    · obtain ⟨g, sb, hg⟩ := (hinv c).2 h
      exact ⟨_, g, hg, rfl⟩

/-- **C9**, witness: two find-lesson events from chat 2 reach
`await_subject` with the grade stored, and the run raises no `KeyError`. -/
theorem c9_collection_invariant_witness :
    runUpdates cEnv emptySessMap
      [(2, Event.text "Ask Bot to Find Lesson"), (2, Event.text "Grade 8")]
      ≠ Except.error "KeyError: tmp"
  ∧ ∃ tm g,
      (Session.mk (some "await_subject") none (some (Tmp.mk (some "Grade 8") none none))).tmp
        = some tm ∧ tm.grade = some g := by
  have h := c9_collection_invariant cEnv
    [(2, Event.text "Ask Bot to Find Lesson"), (2, Event.text "Grade 8")]
  constructor
  · exact h.1 "KeyError: tmp"
  · exact h.2
      (fun c => if c = 2 then
          Session.mk (some "await_subject") none (some (Tmp.mk (some "Grade 8") none none))
        else if c = 2 then Session.mk (some "await_grade") none none
        else initialSess)
      [Effect.msg "Which Grade? (e.g., Grade 6)",
       Effect.msg "Which Subject? (e.g., Mathematics)"]
      2 rfl (Or.inl rfl)

/-- **C3** amended: pending fields are overwritten at the start of each
find-lesson flow, not cleared at its end.  For every reachable session map:
in `await_subject`, `tmp` holds exactly the grade collected by the current
flow (subject and chapter unset); in `await_chapter`, exactly grade and
subject.  Hence every read of the mapping in a collection state sees only
data written by the current flow and no stale data from an abandoned flow
reaches a different flow's pipeline query — but an idle session may still
carry leftover fields from a finished flow (see the counterexample), which
are simply never read while idle. -/
theorem c3_amended (env : Env) (us : List (Int × Event)) (m2 : SessMap)
    (effs : List Effect)
    (h : runUpdates env emptySessMap us = Except.ok (m2, effs)) (c : Int) :
    ((m2 c).state = some "await_subject" →
      ∃ g, (m2 c).tmp = some (Tmp.mk (some g) none none))
  ∧ ((m2 c).state = some "await_chapter" →
      ∃ g sb, (m2 c).tmp = some (Tmp.mk (some g) (some sb) none)) := by
  obtain ⟨m3, effs2, heq, hinv⟩ := runUpdates_inv env us emptySessMap mapInv_empty
  rw [heq] at h
  have hm : m3 = m2 := congrArg Prod.fst (Except.ok.inj h)
  subst hm
  exact hinv c

/-- **C3** amended, witness: a flow stopped after the grade step leaves
exactly the grade in `tmp`. -/
theorem c3_amended_witness :
    ∃ g, (Session.mk (some "await_subject") none (some (Tmp.mk (some "G7") none none))).tmp
      = some (Tmp.mk (some g) none none) := by
  exact (c3_amended cEnv
    [(1, Event.text "Ask Bot to Find Lesson"), (1, Event.text "G7")]
    (fun c => if c = 1 then
        Session.mk (some "await_subject") none (some (Tmp.mk (some "G7") none none))
      else if c = 1 then Session.mk (some "await_grade") none none
      else initialSess)
    [Effect.msg "Which Grade? (e.g., Grade 6)",
     Effect.msg "Which Subject? (e.g., Mathematics)"]
    rfl 1).1 rfl

/-- **C5**: for every input text the objectives generator returns non-empty
output (given `max_points ≥ 1`, the source's value being 5, and a ranking
whose non-empty output contains a printable line — true of the real
tokenizer): keyword-matching sentences are bulleted in document order capped
at `max_points`; with zero matches the summarizer's output is re-bulleted;
if that is empty too, the fixed two-line placeholder is returned. -/
theorem c5_objectives_nonempty (sum : String → Nat → List String)
    (text : String) (m : Nat) (hm : 1 ≤ m)
    (hsum : summarize_run sum text m ≠ "" →
      ∃ l, l ∈ pySplit '\n' (summarize_run sum text m) ∧ pyStrip l ≠ "") :
    extract_objectives_from_text sum text m ≠ ""
  ∧ (∀ c cs, objectives_candidates text = c :: cs →
      extract_objectives_from_text sum text m
        = pyJoin "\n" (((c :: cs).take m).map (fun k => "• " ++ k)))
  ∧ (objectives_candidates text = [] → summarize_run sum text m = "" →
      extract_objectives_from_text sum text m = "• Objective 1\n• Objective 2") := by
  refine ⟨?_, ?_, ?_⟩
  · cases hcand : objectives_candidates text with
    | cons c cs =>
      unfold extract_objectives_from_text
      rw [hcand]
      show pyJoin "\n" ((List.take m (c :: cs)).map (fun k2 => "• " ++ k2)) ≠ ""
      cases m with
      | zero => omega
      | succ k =>
        rw [List.take_succ_cons]
        show pyJoin "\n" (("• " ++ c) :: (cs.take k).map (fun k2 => "• " ++ k2)) ≠ ""
        exact pyJoin_ne_empty_of_mem "\n" _ ("• " ++ c)
          (append_ne_empty_left "• " c (by decide)) (List.mem_cons_self _ _)
    | nil =>
      unfold extract_objectives_from_text
      rw [hcand]
      by_cases hse : summarize_run sum text m = ""
      · simp only [hse, if_pos rfl]
        decide
      · rw [if_neg hse]
        obtain ⟨l, hl, hlne⟩ := hsum hse
        have hb : ("• " ++ pyStrip l)
            ∈ (pySplit '\n' (summarize_run sum text m)).filterMap (fun s =>
                if pyStrip s = "" then none else some ("• " ++ pyStrip s)) := by
          apply List.mem_filterMap.mpr
          exact ⟨l, hl, by rw [if_neg hlne]⟩
        exact pyJoin_ne_empty_of_mem "\n" _ ("• " ++ pyStrip l)
          (append_ne_empty_left "• " _ (by decide)) hb
  · intro c cs hcand
    unfold extract_objectives_from_text
    rw [hcand]
  · intro hcand hse
    unfold extract_objectives_from_text
    rw [hcand]
    simp [hse]

/-- **C5**, witness: no keyword match and an empty summary still yield the
non-empty placeholder. -/
theorem c5_objectives_nonempty_witness :
    extract_objectives_from_text emptySum "hello" 5 ≠ "" :=
  (c5_objectives_nonempty emptySum "hello" 5 (by decide)
    (fun h => absurd rfl h)).1

/-- **C10**: the assessment generator labels each surviving question
`Q(i+1)` where `i` is the sentence's position in the summarizer's output
(not the count of surviving questions) — so a discarded short sentence
yields non-consecutive numbers, as the embedded concrete run shows; the
result has at most `max_q` questions (for `max_q ≥ 2`, the source's value
being 4) and is non-empty, the two fixed placeholders being returned when no
sentence survives. -/
theorem c10_assessment_numbering (sum : String → Nat → List String)
    (text : String) (max_q : Nat) (hq : 2 ≤ max_q) :
    (∀ q, q ∈ assessment_qs sum text max_q →
      ∃ i s, (i, s) ∈ pyEnum ((pySplit '\n' (summarize_run sum text 4)).take max_q)
        ∧ ¬ (pySplitWs (pyRstrip '.' (pyStrip s))).length < 3
        ∧ q = "Q" ++ toString (i + 1) ++ ". Explain: " ++ pyRstrip '.' (pyStrip s) ++ "?")
  ∧ (assessment_final sum text max_q).length ≤ max_q
  ∧ (assessment_qs sum text max_q = [] →
      assessment_final sum text max_q
        = ["Q1. What is the main idea of the chapter?", "Q2. List two key points."])
  ∧ generate_assessment_questions sum text max_q ≠ ""
  ∧ generate_assessment_questions demoSum "x" 4
      = "Q1. Explain: One two three?\nQ3. Explain: four five six seven?" := by
  refine ⟨?_, ?_, ?_, ?_, rfl⟩
  · intro q hq2
    unfold assessment_qs at hq2
    obtain ⟨p, hp, hfp⟩ := List.mem_filterMap.mp hq2
    obtain ⟨i, s⟩ := p
    refine ⟨i, s, hp, ?_, ?_⟩
    · intro hlen
      unfold assessment_label at hfp
      rw [if_pos hlen] at hfp
      exact Option.noConfusion hfp
    · by_cases hlen : (pySplitWs (pyRstrip '.' (pyStrip s))).length < 3
      · unfold assessment_label at hfp
        rw [if_pos hlen] at hfp
        exact Option.noConfusion hfp
      · unfold assessment_label at hfp
        rw [if_neg hlen] at hfp
        exact (Option.some.inj hfp).symm
  · cases hqs : assessment_qs sum text max_q with
    | nil =>
      unfold assessment_final
      rw [hqs]
      show ([("Q1. What is the main idea of the chapter?" : String),
        "Q2. List two key points."]).length ≤ max_q
      simpa using hq
    | cons a l =>
      unfold assessment_final
      rw [hqs]
      show (a :: l).length ≤ max_q
      rw [← hqs]
      unfold assessment_qs
      have h1 := List.length_filterMap_le
        (fun p : Nat × String => assessment_label p.1 p.2)
        (pyEnum ((pySplit '\n' (summarize_run sum text 4)).take max_q))
      have h2 : (pyEnum ((pySplit '\n' (summarize_run sum text 4)).take max_q)).length
          = ((pySplit '\n' (summarize_run sum text 4)).take max_q).length :=
        pyEnumFrom_length 0 _
      have h3 := List.length_take_le max_q (pySplit '\n' (summarize_run sum text 4))
      omega
  · intro h
    unfold assessment_final
    rw [h]
  · cases hqs : assessment_qs sum text max_q with
    | nil =>
      unfold generate_assessment_questions assessment_final
      rw [hqs]
      decide
    | cons a l =>
      unfold generate_assessment_questions assessment_final
      rw [hqs]
      have ha : a ∈ assessment_qs sum text max_q := by
        rw [hqs]
        exact List.mem_cons_self a l
      unfold assessment_qs at ha
      obtain ⟨p, hp, hfp⟩ := List.mem_filterMap.mp ha
      unfold assessment_label at hfp
      by_cases hlen : (pySplitWs (pyRstrip '.' (pyStrip p.2))).length < 3
      · rw [if_pos hlen] at hfp
        exact absurd hfp (fun hc => Option.noConfusion hc)
      · rw [if_neg hlen] at hfp
        have hae : "Q" ++ toString (p.1 + 1) ++ ". Explain: "
            ++ pyRstrip '.' (pyStrip p.2) ++ "?" = a := Option.some.inj hfp
        have hane : a ≠ "" := by
          rw [← hae]
          exact append_ne_empty_left _ _ (append_ne_empty_left _ _
            (append_ne_empty_left _ _
              (append_ne_empty_left "Q" (toString (p.1 + 1)) (by decide))))
        exact pyJoin_ne_empty_of_mem "\n" _ a hane (List.mem_cons_self a l)

/-- **C10**, witness: the concrete non-consecutive numbering run and its
question-count bound. -/
theorem c10_assessment_numbering_witness :
    generate_assessment_questions demoSum "x" 4
      = "Q1. Explain: One two three?\nQ3. Explain: four five six seven?"
  ∧ (assessment_final demoSum "x" 4).length ≤ 4 := by
  have h := c10_assessment_numbering demoSum "x" 4 (by decide)
  exact ⟨h.2.2.2.2, h.2.1⟩
